import Mathlib

/-!
Shallow embedding of the WhatsApp notification backend
(`backend/main.py`, `backend/utils.py`, `backend/models.py`,
`backend/schemas.py`) and proofs about its message-lifecycle engine:
campaign creation and fan-out (`create_campaign_and_queue`), dispatch
(`send_campaign_messages`), and the webhook callback reconciler
(`process_status_update`, `process_incoming_message`).

Python dicts coming from webhooks are modelled as structures of
`Option` fields; Python truthiness of an optional string (`if not x`)
is `pyTruthy`; `datetime.utcnow()` is an explicit `now : Nat`
parameter; the SQLAlchemy session is a `DB` structure of lists, with
`.first()` modelled as `List.find?` and in-place row mutation as
first-match update of the list.
-/

namespace WhatsAppBackend

/-- Python truthiness of an optional string: `None` and `""` are falsy. -/
def pyTruthy : Option String → Bool
  | none => false
  | some s => s ≠ ""

/-- Python `str(x)` applied to an optional value: `str(None) = "None"`. -/
def pyStr : Option String → String
  | none => "None"
  | some s => s

/-- Message lifecycle states, from `models.MessageStatus`. -/
inductive MessageStatus where
  | queued
  | sent
  | delivered
  | read
  | failed
deriving DecidableEq, Repr

/-- Recipient record, from `models.Member` (fields the engine reads). -/
structure Member where
  id : Nat
  phone_number : String
  is_opted_in : Bool
  status : Option String
  city : Option String
  plan : Option String
deriving DecidableEq, Repr

/-- Campaign aggregate, from `models.Campaign`. -/
structure Campaign where
  id : Nat
  name : String
  template_name : String
  description : Option String
  target_count : Nat
  sent_count : Nat
  delivered_count : Nat
  read_count : Nat
  failed_count : Nat
  status : String
  created_at : Nat
  sent_at : Option Nat
deriving DecidableEq, Repr

/-- Per-recipient message ledger entry, from `models.Message`. -/
structure Message where
  id : Nat
  campaign_id : Nat
  member_id : Nat
  status : MessageStatus
  template_name : Option String
  whatsapp_message_id : Option String
  error_message : Option String
  created_at : Nat
  sent_at : Option Nat
  delivered_at : Option Nat
  read_at : Option Nat
deriving DecidableEq, Repr

/-- Inbound reply record, from `models.Response`. -/
structure Response where
  message_id : Nat
  member_id : Nat
  campaign_id : Nat
  response_type : String
  button_title : String
  button_id : String
  received_at : Nat
deriving DecidableEq, Repr

/-- Opt-out audit record, from `models.OptOut`. -/
structure OptOut where
  member_id : Nat
  phone_number : String
  reason : String
deriving DecidableEq, Repr

/-- The persistent state touched by the engine: one list per table,
plus fresh-id counters standing for the autoincrement primary keys. -/
structure DB where
  members : List Member
  campaigns : List Campaign
  messages : List Message
  responses : List Response
  optouts : List OptOut
  nextCampaignId : Nat
  nextMessageId : Nat
deriving DecidableEq, Repr

/-! ## utils.py -/

/-- Fixed stop vocabulary from `utils.is_stop_command`. -/
def stopCommands : List String := ["stop", "unsubscribe", "cancel", "end", "quit"]

/-- ASCII whitespace recognized by Python `str.strip()`. -/
def isSpaceChar (c : Char) : Bool :=
  c = ' ' || c = '\t' || c = '\n' || c = '\x0d' || c = '\x0b' || c = '\x0c'

/-- Python `str.strip()`: drop leading and trailing whitespace. -/
def pyStrip (s : String) : String :=
  ⟨((s.data.dropWhile isSpaceChar).reverse.dropWhile isSpaceChar).reverse⟩

/-- Python `str.lower()` on one ASCII character. -/
def lowerChar (c : Char) : Char :=
  if 65 ≤ c.toNat ∧ c.toNat ≤ 90 then Char.ofNat (c.toNat + 32) else c

/-- Python `str.lower()`. -/
def pyLower (s : String) : String :=
  ⟨s.data.map lowerChar⟩

/-- Embedding of `utils.is_stop_command`: falsy text is rejected, otherwise
the text is stripped, lowercased and matched exactly against the set. -/
def is_stop_command (text : String) : Bool :=
  if text = "" then false
  else stopCommands.contains (pyLower (pyStrip text))

/-- Webhook status object `{id, status, timestamp, errors}` as a structure
of optional fields (absent key = `none`). -/
structure StatusData where
  id : Option String
  status : Option String
  errors : List String
deriving DecidableEq, Repr

/-- Parsed status info returned by `utils.extract_message_status`. -/
structure StatusInfo where
  whatsapp_message_id : String
  status : String
  error : Option String
deriving DecidableEq, Repr

/-- Embedding of `utils.extract_message_status`: requires truthy `id` and
`status`, takes the first element of `errors` when the list is nonempty. -/
def extract_message_status (sd : StatusData) : Option StatusInfo :=
  if !pyTruthy sd.id || !pyTruthy sd.status then none
  else some
    { whatsapp_message_id := sd.id.getD ""
      status := sd.status.getD ""
      error := sd.errors.head? }

/-- One `button_reply` / `list_reply` sub-object `{id, title}`. -/
structure BRData where
  rid : Option String
  title : Option String
deriving DecidableEq, Repr

/-- The `interactive` sub-object of an inbound message event. -/
structure InteractiveData where
  itype : Option String
  button_reply : Option BRData
  list_reply : Option BRData
deriving DecidableEq, Repr

/-- The legacy `button` sub-object `{payload, text}`. -/
structure ButtonData where
  payload : Option String
  btext : Option String
deriving DecidableEq, Repr

/-- Inbound message webhook event `{from, text.body, interactive, button}`. -/
structure IncomingData where
  msg_from : Option String
  text_body : Option String
  interactive : Option InteractiveData
  button : Option ButtonData
deriving DecidableEq, Repr

/-- Extracted reply payload, as the dict returned by
`utils.extract_button_payload`. -/
structure ButtonPayload where
  response_type : String
  button_id : String
  button_title : String
deriving DecidableEq, Repr

/-- Python `str(x or "")` for an optional string field. -/
def strOrEmpty (o : Option String) : String :=
  if pyTruthy o then o.getD "" else ""

/-- Embedding of `utils.extract_button_payload`: `interactive.button_reply`
and `interactive.list_reply` are handled first (matching only on
`interactive.type`, with a missing sub-object read as `{}`), then the
legacy `button` shape; anything else yields `none`. -/
def extract_button_payload (d : IncomingData) : Option ButtonPayload :=
  match d.interactive with
  | some i =>
    if i.itype = some "button_reply" then
      let br := i.button_reply.getD { rid := none, title := none }
      some { response_type := "button_reply"
             button_id := strOrEmpty br.rid
             button_title := strOrEmpty br.title }
    else if i.itype = some "list_reply" then
      let lr := i.list_reply.getD { rid := none, title := none }
      some { response_type := "list_reply"
             button_id := strOrEmpty lr.rid
             button_title := strOrEmpty lr.title }
    else
      match d.button with
      | some b => some { response_type := "button"
                         button_id := strOrEmpty b.payload
                         button_title := strOrEmpty b.btext }
      | none => none
  | none =>
    match d.button with
    | some b => some { response_type := "button"
                       button_id := strOrEmpty b.payload
                       button_title := strOrEmpty b.btext }
    | none => none

/-! ## Session helpers: `.first()` lookups and in-place row mutation -/

/-- SQLAlchemy `query(Campaign).filter(id == cid).first()`. -/
def getCampaign (cs : List Campaign) (cid : Nat) : Option Campaign :=
  cs.find? (fun c => c.id == cid)

/-- SQLAlchemy `query(Message).filter(whatsapp_message_id == wid).first()`
(a NULL column never equals a non-null value). -/
def findMessageByWa (msgs : List Message) (wid : String) : Option Message :=
  msgs.find? (fun m => m.whatsapp_message_id == some wid)

/-- SQLAlchemy `query(Member).filter(phone_number == p).first()`. -/
def findMember (ms : List Member) (p : String) : Option Member :=
  ms.find? (fun m => m.phone_number == p)

/-- In-place mutation of the first campaign row with the given id. -/
def updCampaign (cs : List Campaign) (cid : Nat) (f : Campaign → Campaign) :
    List Campaign :=
  match cs with
  | [] => []
  | c :: rest =>
    if c.id = cid then f c :: rest else c :: updCampaign rest cid f

/-- In-place mutation of the first message row with the given
`whatsapp_message_id`. -/
def updMessageByWa (msgs : List Message) (wid : String) (f : Message → Message) :
    List Message :=
  match msgs with
  | [] => []
  | m :: rest =>
    if m.whatsapp_message_id = some wid then f m :: rest
    else m :: updMessageByWa rest wid f

/-- In-place mutation of the first message row with the given primary key. -/
def updMessageById (msgs : List Message) (mid : Nat) (f : Message → Message) :
    List Message :=
  match msgs with
  | [] => []
  | m :: rest =>
    if m.id = mid then f m :: rest else m :: updMessageById rest mid f

/-- In-place mutation of the first member row with the given phone number. -/
def updMemberByPhone (ms : List Member) (p : String) (f : Member → Member) :
    List Member :=
  match ms with
  | [] => []
  | m :: rest =>
    if m.phone_number = p then f m :: rest else m :: updMemberByPhone rest p f

/-- SQLAlchemy `query(Message).filter(member_id == mid)
.order_by(desc(created_at)).first()`: a message of the member with
maximal `created_at`. -/
def latestMessageFor (msgs : List Message) (mid : Nat) : Option Message :=
  (msgs.filter (fun m => m.member_id == mid)).argmax (·.created_at)

/-! ## main.py: webhook callback reconciler -/

/-- Embedding of `main.process_status_update`: parse the status payload,
look the message up by provider id, then apply the event's status
unconditionally, stamping the matching timestamp and bumping the owning
campaign's counter for `delivered` / `read` / `failed`. -/
def process_status_update (db : DB) (now : Nat) (sd : StatusData) : DB :=
  match extract_message_status sd with
  | none => db
  | some info =>
    if info.whatsapp_message_id = "" then db
    else
      match findMessageByWa db.messages info.whatsapp_message_id with
      | none => db
      | some msg =>
        if info.status = "sent" then
          { db with
            messages := updMessageByWa db.messages info.whatsapp_message_id
              (fun m => { m with status := .sent, sent_at := some now }) }
        else if info.status = "delivered" then
          { db with
            messages := updMessageByWa db.messages info.whatsapp_message_id
              (fun m => { m with status := .delivered, delivered_at := some now })
            campaigns := updCampaign db.campaigns msg.campaign_id
              (fun c => { c with delivered_count := c.delivered_count + 1 }) }
        else if info.status = "read" then
          { db with
            messages := updMessageByWa db.messages info.whatsapp_message_id
              (fun m => { m with status := .read, read_at := some now })
            campaigns := updCampaign db.campaigns msg.campaign_id
              (fun c => { c with read_count := c.read_count + 1 }) }
        else if info.status = "failed" then
          { db with
            messages := updMessageByWa db.messages info.whatsapp_message_id
              (fun m => { m with status := .failed,
                                 error_message := some (pyStr info.error) })
            campaigns := updCampaign db.campaigns msg.campaign_id
              (fun c => { c with failed_count := c.failed_count + 1 }) }
        else db

/-- Embedding of `main.process_incoming_message`: falsy sender or unknown
member discards the event; a stop command flips the member's opt-in flag
off and appends one `OptOut`; otherwise a recognized reply payload is
attributed to the member's most recent message as one `Response`, and an
event with no payload or no prior message is discarded. -/
def process_incoming_message (db : DB) (now : Nat) (d : IncomingData) : DB :=
  match d.msg_from with
  | none => db
  | some sender =>
    if sender = "" then db
    else
      match findMember db.members sender with
      | none => db
      | some member =>
        let text := d.text_body.getD ""
        if is_stop_command text then
          { db with
            members := updMemberByPhone db.members sender
              (fun m => { m with is_opted_in := false })
            optouts := db.optouts ++
              [{ member_id := member.id, phone_number := sender, reason := "stop" }] }
        else
          match extract_button_payload d with
          | none => db
          | some payload =>
            match latestMessageFor db.messages member.id with
            | none => db
            | some last_msg =>
              { db with
                responses := db.responses ++
                  [{ message_id := last_msg.id
                     member_id := member.id
                     campaign_id := last_msg.campaign_id
                     response_type := payload.response_type
                     button_title := payload.button_title
                     button_id := payload.button_id
                     received_at := now }] }

/-! ## main.py: campaign creation and dispatch -/

/-- Request body of `POST /send-template`, from `schemas.SendTemplateRequest`. -/
structure SendTemplateRequest where
  campaign_name : String
  template_name : String
  description : Option String
  status_filter : Option String
  plan_filter : Option String
  city_filter : Option String
  expiry_days_filter : Option Nat
  auto_dispatch : Bool
deriving DecidableEq, Repr

/-- The per-recipient fan-out loop of `main.create_campaign_and_queue`:
one queued `Message` row per selected member, with autoincrement ids. -/
def mkQueuedMessages (cid : Nat) (tname : String) (now : Nat) :
    Nat → List Member → List Message
  | _, [] => []
  | nid, m :: rest =>
    { id := nid
      campaign_id := cid
      member_id := m.id
      status := .queued
      template_name := some tname
      whatsapp_message_id := none
      error_message := none
      created_at := now
      sent_at := none
      delivered_at := none
      read_at := none } :: mkQueuedMessages cid tname now (nid + 1) rest

/-- Embedding of `main.create_campaign_and_queue` (route
`POST /send-template`): select the opted-in members, raise HTTP 400 when
there are none, otherwise insert one queued `Campaign` with
`target_count` the number of selected members and one queued `Message`
per selected member, all committed together. Returns the new state and
the new campaign id. -/
def create_campaign_and_queue (db : DB) (req : SendTemplateRequest) (now : Nat) :
    Except String (DB × Nat) :=
  let members := db.members.filter (·.is_opted_in)
  if members.isEmpty then .error "No opted-in members"
  else
    let cid := db.nextCampaignId
    let campaign : Campaign :=
      { id := cid
        name := req.campaign_name
        template_name := req.template_name
        description := req.description
        target_count := members.length
        sent_count := 0
        delivered_count := 0
        read_count := 0
        failed_count := 0
        status := "queued"
        created_at := now
        sent_at := none }
    .ok ({ db with
            campaigns := db.campaigns ++ [campaign]
            messages := db.messages ++
              mkQueuedMessages cid req.template_name now db.nextMessageId members
            nextCampaignId := cid + 1
            nextMessageId := db.nextMessageId + members.length }, cid)

/-- Outcome of one `wa.send_template_message_sync` call: a success dict
(whose `message_id` may still be absent), a failure dict carrying an
error value, or a raised exception. -/
inductive SendResult where
  | ok (message_id : Option String)
  | err (error : Option String)
  | exn (e : String)
deriving DecidableEq, Repr

/-- Per-message row mutation performed by the dispatch loop of
`main.send_campaign_messages`, by provider outcome. -/
def applySend (provider : Nat → SendResult) (now : Nat) (m : Message) : Message :=
  match provider m.id with
  | .ok mid => { m with status := .sent, whatsapp_message_id := mid,
                        sent_at := some now }
  | .err e => { m with status := .failed, error_message := some (pyStr e) }
  | .exn e => { m with status := .failed, error_message := some e }

/-- Campaign counter bump performed by the dispatch loop, by provider
outcome. -/
def incCounters : SendResult → Campaign → Campaign
  | .ok _, c => { c with sent_count := c.sent_count + 1 }
  | .err _, c => { c with failed_count := c.failed_count + 1 }
  | .exn _, c => { c with failed_count := c.failed_count + 1 }

/-- One iteration of the dispatch loop: mutate the message row and the
campaign row, then commit. -/
def dispatchStep (provider : Nat → SendResult) (now : Nat) (cid : Nat)
    (acc : DB) (m : Message) : DB :=
  { acc with
    messages := updMessageById acc.messages m.id (applySend provider now)
    campaigns := updCampaign acc.campaigns cid (incCounters (provider m.id)) }

/-- Embedding of `main.send_campaign_messages`: a missing campaign is a
silent no-op; otherwise the campaign is marked `sending`, the messages of
the campaign still `queued` are snapshotted, each is sent through the
provider and committed individually, and finally the campaign is marked
`sent`. The provider call is modelled as a function of the message id. -/
def send_campaign_messages (db : DB) (cid : Nat)
    (provider : Nat → SendResult) (now : Nat) : DB :=
  match getCampaign db.campaigns cid with
  | none => db
  | some _ =>
    let db1 := { db with
      campaigns := updCampaign db.campaigns cid
        (fun c => { c with status := "sending", sent_at := some now }) }
    let snapshot := db1.messages.filter
      (fun m => m.campaign_id == cid && m.status == MessageStatus.queued)
    let db2 := snapshot.foldl (dispatchStep provider now cid) db1
    { db2 with
      campaigns := updCampaign db2.campaigns cid
        (fun c => { c with status := "sent" }) }

/-- Response body of `POST /campaigns/{id}/dispatch`. -/
structure DispatchResponse where
  status : String
  campaign_id : Nat
deriving DecidableEq, Repr

/-- Embedding of the `main.dispatch_campaign` route handler: it enqueues
the background send task and answers `dispatch_started` unconditionally,
without checking that the campaign exists. -/
def dispatch_campaign (campaign_id : Nat) : DispatchResponse :=
  { status := "dispatch_started", campaign_id := campaign_id }

/-! ## Spec-side definitions -/

/-- Specification-side selection predicate, following the spec's words for
`CreateCampaign(template, filterPredicate)`: the request's segmentation
filters (the spec's filterable attributes are the opaque strings
status/city/plan) each constrain the matching member attribute when set.
This is the predicate the claims compare the implementation against; the
implementation itself is `create_campaign_and_queue`. -/
def specFilterMatches (req : SendTemplateRequest) (m : Member) : Bool :=
  (match req.status_filter with | none => true | some v => m.status == some v) &&
  (match req.city_filter with | none => true | some v => m.city == some v) &&
  (match req.plan_filter with | none => true | some v => m.plan == some v)

/-- Campaign counter invariants stated by the spec:
`sent + failed ≤ target`, `delivered ≤ sent`, `read ≤ delivered`. -/
def campaignInvariants (c : Campaign) : Bool :=
  (c.sent_count + c.failed_count ≤ c.target_count : Bool) &&
  (c.delivered_count ≤ c.sent_count : Bool) &&
  (c.read_count ≤ c.delivered_count : Bool)

/-! ## Concrete fixtures used by the refutation theorems -/

/-- One opted-in member. -/
def demoMember : Member :=
  { id := 1, phone_number := "+15550001111", is_opted_in := true,
    status := some "active", city := none, plan := none }

/-- Initial state: one opted-in member, nothing else. -/
def demoDb : DB :=
  { members := [demoMember], campaigns := [], messages := [],
    responses := [], optouts := [], nextCampaignId := 1, nextMessageId := 1 }

/-- A filterless send-template request. -/
def demoReq : SendTemplateRequest :=
  { campaign_name := "welcome", template_name := "hello_world",
    description := none, status_filter := none, plan_filter := none,
    city_filter := none, expiry_days_filter := none, auto_dispatch := true }

/-- State after creating the demo campaign (campaign id 1, one queued
message). -/
def demoAfterCreate : DB :=
  match create_campaign_and_queue demoDb demoReq 0 with
  | .ok (db, _) => db
  | .error _ => demoDb

/-- A provider that always succeeds with the same provider message id. -/
def demoProvider : Nat → SendResult := fun _ => .ok (some "wamid.demo.1")

/-- State after dispatching campaign 1: the single message is `sent` with
provider id `wamid.demo.1`, and `sent_count = 1`. -/
def demoDispatched : DB :=
  send_campaign_messages demoAfterCreate 1 demoProvider 1

/-- A well-formed `delivered` status event for the dispatched message. -/
def sdDelivered : StatusData :=
  { id := some "wamid.demo.1", status := some "delivered", errors := [] }

/-- A well-formed `read` status event for the dispatched message. -/
def sdRead : StatusData :=
  { id := some "wamid.demo.1", status := some "read", errors := [] }

/-- State in which the demo message reached the terminal `read` state via
an orderly `delivered` then `read` event sequence. -/
def demoRead : DB :=
  process_status_update (process_status_update demoDispatched 2 sdDelivered) 3 sdRead

/-- Member that is opted in but does not satisfy the request filter below. -/
def cx4Member : Member :=
  { id := 1, phone_number := "+15550002222", is_opted_in := true,
    status := some "expired", city := none, plan := none }

/-- State with only the non-matching member. -/
def cx4Db : DB :=
  { members := [cx4Member], campaigns := [], messages := [],
    responses := [], optouts := [], nextCampaignId := 1, nextMessageId := 1 }

/-- Request selecting members with status "active". -/
def cx4Req : SendTemplateRequest :=
  { demoReq with status_filter := some "active" }

/-- Discriminator of an `Except` result. -/
def exceptOk : Except String (DB × Nat) → Bool
  | .ok _ => true
  | .error _ => false

/-- C1: the campaign counter invariants do NOT hold at every reachable
point. Reachable trace: create a campaign for one opted-in member
(`target_count = 1`), dispatch it successfully (`sent_count = 1`), then
apply the same well-formed `delivered` status event twice. The code
increments `delivered_count` on every `delivered` event without checking
the message's current state, so `delivered_count = 2 > sent_count = 1`,
violating `delivered_count ≤ sent_count`. -/
theorem invariants_violated_by_duplicate_delivered :
    (getCampaign demoDispatched.campaigns 1).map campaignInvariants = some true
    ∧ (getCampaign (process_status_update
        (process_status_update demoDispatched 2 sdDelivered) 3 sdDelivered).campaigns 1).map
          campaignInvariants = some false
    ∧ (getCampaign (process_status_update
        (process_status_update demoDispatched 2 sdDelivered) 3 sdDelivered).campaigns 1).map
          (fun c => (c.sent_count, c.delivered_count)) = some (1, 2) := by
  decide

/-- C2: the webhook status handler does NOT discard events for terminal
messages. In `demoRead` the demo message has reached the terminal state
`read` (with `delivered_count = 1`); a further `delivered` event moves
the message state backward to `delivered` and increments
`delivered_count` to 2, instead of leaving state and counters unchanged.
Likewise, a `read` event for a message that was never `delivered` (state
`sent`) is applied, setting the state to `read` and `read_count` to 1
instead of being discarded. -/
theorem terminal_event_not_discarded :
    ((findMessageByWa demoRead.messages "wamid.demo.1").map (·.status)
      = some MessageStatus.read)
    ∧ ((getCampaign demoRead.campaigns 1).map (·.delivered_count) = some 1)
    ∧ ((findMessageByWa (process_status_update demoRead 4 sdDelivered).messages
        "wamid.demo.1").map (·.status) = some MessageStatus.delivered)
    ∧ ((getCampaign (process_status_update demoRead 4 sdDelivered).campaigns 1).map
        (·.delivered_count) = some 2)
    ∧ ((findMessageByWa (process_status_update demoDispatched 2 sdRead).messages
        "wamid.demo.1").map (·.status) = some MessageStatus.read)
    ∧ ((getCampaign (process_status_update demoDispatched 2 sdRead).campaigns 1).map
        (fun c => (c.delivered_count, c.read_count)) = some (0, 1)) := by
  decide

/-- C3: applying the same status event twice is NOT idempotent on the
campaign counters. Applying the `delivered` event once to the dispatched
demo state yields `delivered_count = 1`; applying the identical event a
second time yields `delivered_count = 2`, because the handler increments
the counter unconditionally. -/
theorem delivered_event_not_idempotent :
    ((getCampaign (process_status_update demoDispatched 2 sdDelivered).campaigns 1).map
      (·.delivered_count) = some 1)
    ∧ ((getCampaign (process_status_update
        (process_status_update demoDispatched 2 sdDelivered) 3 sdDelivered).campaigns 1).map
          (·.delivered_count) = some 2) := by
  decide

/-- C4 counterexample: `create_campaign_and_queue` ignores the request's
segmentation filters. With one opted-in member whose status is
"expired" and a request whose `status_filter` is "active", the set of
members satisfying the filter AND opted in is empty, so the claim
requires a `NoEligibleRecipients` failure; instead the code succeeds and
fans out one message to the non-matching member. -/
theorem create_campaign_ignores_filters :
    (cx4Db.members.filter
      (fun m => specFilterMatches cx4Req m && m.is_opted_in)).isEmpty = true
    ∧ specFilterMatches cx4Req cx4Member = false
    ∧ exceptOk (create_campaign_and_queue cx4Db cx4Req 0) = true
    ∧ ((create_campaign_and_queue cx4Db cx4Req 0).toOption.map
        (fun p => (p.1.messages.filter (fun ms => ms.campaign_id == p.2)).map
          (·.member_id))) = some [1] := by
  decide

/-! ## Lemmas about the fan-out -/

/-- The fan-out creates messages whose member ids are exactly the selected
members' ids, in order. -/
theorem mkQueuedMessages_map_member_id (cid : Nat) (t : String) (now : Nat) :
    ∀ (nid : Nat) (ms : List Member),
      (mkQueuedMessages cid t now nid ms).map (·.member_id) = ms.map (·.id) := by
  intro nid ms
  induction ms generalizing nid with
  | nil => rfl
  | cons m rest ih => simp [mkQueuedMessages, ih]

/-- Every fan-out message is queued, belongs to the new campaign, and
references some selected member. -/
theorem mem_mkQueuedMessages (cid : Nat) (t : String) (now : Nat) :
    ∀ (nid : Nat) (ms : List Member) (msg : Message),
      msg ∈ mkQueuedMessages cid t now nid ms →
      msg.status = MessageStatus.queued ∧ msg.campaign_id = cid ∧
        ∃ mm ∈ ms, msg.member_id = mm.id := by
  intro nid ms
  induction ms generalizing nid with
  | nil => intro msg h; cases h
  | cons m rest ih =>
    intro msg h
    rcases List.mem_cons.mp h with h | h
    · subst h
      exact ⟨rfl, rfl, m, List.mem_cons_self .., rfl⟩
    · obtain ⟨hq, hc, mm, hmm, hid⟩ := ih (nid + 1) msg h
      exact ⟨hq, hc, mm, List.mem_cons_of_mem _ hmm, hid⟩

/-- Characterization of a successful `create_campaign_and_queue` call,
shared by the theorems below: the new state is the old one plus one
queued campaign over the opted-in members and their fan-out messages. -/
theorem create_campaign_ok (db : DB) (req : SendTemplateRequest) (now : Nat)
    (db' : DB) (cid : Nat)
    (hok : create_campaign_and_queue db req now = .ok (db', cid)) :
    cid = db.nextCampaignId
    ∧ db'.campaigns = db.campaigns ++
        [{ id := cid
           name := req.campaign_name
           template_name := req.template_name
           description := req.description
           target_count := (db.members.filter (·.is_opted_in)).length
           sent_count := 0
           delivered_count := 0
           read_count := 0
           failed_count := 0
           status := "queued"
           created_at := now
           sent_at := none }]
    ∧ db'.messages = db.messages ++
        mkQueuedMessages cid req.template_name now db.nextMessageId
          (db.members.filter (·.is_opted_in))
    ∧ db'.members = db.members
    ∧ db'.responses = db.responses
    ∧ db'.optouts = db.optouts := by
  unfold create_campaign_and_queue at hok
  by_cases he : (db.members.filter (·.is_opted_in)).isEmpty
  · simp [he] at hok
  · simp only [he, Bool.false_eq_true, if_false] at hok
    obtain ⟨hdb, hcid⟩ := Prod.mk.injEq .. ▸ Except.ok.injEq .. ▸ hok
    subst hcid
    subst hdb
    exact ⟨rfl, rfl, rfl, rfl, rfl, rfl⟩

/-- C4 (amended): `create_campaign_and_queue` selects exactly the opted-in
members, ignoring the request's segmentation filter fields; it fails with
the validation error (creating nothing) exactly when no member is opted
in, and otherwise atomically appends one Campaign with status `queued`
and `target_count` the number of opted-in members, plus exactly one
queued Message per opted-in member, touching nothing else. -/
theorem create_campaign_spec (db : DB) (req : SendTemplateRequest) (now : Nat) :
    (db.members.filter (·.is_opted_in) = [] →
      create_campaign_and_queue db req now = .error "No opted-in members")
    ∧ (∀ db' cid, create_campaign_and_queue db req now = .ok (db', cid) →
        cid = db.nextCampaignId
        ∧ db'.campaigns = db.campaigns ++
            [{ id := cid
               name := req.campaign_name
               template_name := req.template_name
               description := req.description
               target_count := (db.members.filter (·.is_opted_in)).length
               sent_count := 0
               delivered_count := 0
               read_count := 0
               failed_count := 0
               status := "queued"
               created_at := now
               sent_at := none }]
        ∧ db'.messages = db.messages ++
            mkQueuedMessages cid req.template_name now db.nextMessageId
              (db.members.filter (·.is_opted_in))
        ∧ db'.members = db.members
        ∧ db'.responses = db.responses
        ∧ db'.optouts = db.optouts
        ∧ ((db'.messages.drop db.messages.length).map (·.member_id)
            = (db.members.filter (·.is_opted_in)).map (·.id))
        ∧ (∀ msg ∈ db'.messages.drop db.messages.length,
            msg.status = MessageStatus.queued ∧ msg.campaign_id = cid)) := by
  constructor
  · intro h
    simp [create_campaign_and_queue, h]
  · intro db' cid h
    obtain ⟨hcid, hcamps, hmsgs, hmem, hresp, hopt⟩ :=
      create_campaign_ok db req now db' cid h
    refine ⟨hcid, hcamps, hmsgs, hmem, hresp, hopt, ?_, ?_⟩
    · rw [hmsgs]
      simp [mkQueuedMessages_map_member_id]
    · intro msg hmsg
      rw [hmsgs] at hmsg
      simp only [List.drop_left] at hmsg
      obtain ⟨hq, hc, _⟩ := mem_mkQueuedMessages _ _ _ _ _ _ hmsg
      exact ⟨hq, hc⟩

/-- Witness for `create_campaign_spec` at the demo state: one opted-in
member, so creation succeeds with campaign id 1 and one queued message. -/
theorem create_campaign_spec_witness :
    create_campaign_and_queue demoDb demoReq 0 = .ok (demoAfterCreate, 1)
    ∧ (demoAfterCreate.messages.drop demoDb.messages.length).map (·.member_id)
        = (demoDb.members.filter (·.is_opted_in)).map (·.id)
    ∧ ∀ msg ∈ demoAfterCreate.messages.drop demoDb.messages.length,
        msg.status = MessageStatus.queued ∧ msg.campaign_id = 1 := by
  have h := (create_campaign_spec demoDb demoReq 0).2 demoAfterCreate 1 rfl
  exact ⟨rfl, h.2.2.2.2.2.2.1, h.2.2.2.2.2.2.2⟩

/-- C7: a member whose opt-in flag is false at call time is never
referenced by any message of the campaign created by
`create_campaign_and_queue`, in any state whose member ids are distinct
and whose existing messages do not already use the fresh campaign id. -/
theorem opted_out_never_in_fanout (db : DB) (req : SendTemplateRequest) (now : Nat)
    (db' : DB) (cid : Nat)
    (hids : (db.members.map (·.id)).Nodup)
    (hfresh : ∀ ms ∈ db.messages, ms.campaign_id ≠ db.nextCampaignId)
    (hok : create_campaign_and_queue db req now = .ok (db', cid))
    (mem : Member) (hmem : mem ∈ db.members) (hopt : mem.is_opted_in = false) :
    ∀ msg ∈ db'.messages, msg.campaign_id = cid → msg.member_id ≠ mem.id := by
  obtain ⟨hcid, _, hmsgs, _⟩ := create_campaign_ok db req now db' cid hok
  intro msg hmsg hc
  rw [hmsgs] at hmsg
  rcases List.mem_append.mp hmsg with h | h
  · exact absurd (hcid ▸ hc) (hfresh msg h)
  · obtain ⟨_, _, mm, hmmIn, hmid⟩ := mem_mkQueuedMessages _ _ _ _ _ _ h
    obtain ⟨hmmMem, hmmOpt⟩ := List.mem_filter.mp hmmIn
    intro heq
    have hmmEq : mm = mem :=
      List.inj_on_of_nodup_map hids hmmMem hmem (by rw [← hmid]; exact heq)
    rw [hmmEq] at hmmOpt
    simp [hopt] at hmmOpt

/-- Member used by the C7 witness: opted out. -/
def w7OptedOut : Member :=
  { id := 2, phone_number := "+15550003333", is_opted_in := false,
    status := none, city := none, plan := none }

/-- State with one opted-in and one opted-out member. -/
def w7Db : DB :=
  { members := [demoMember, w7OptedOut], campaigns := [], messages := [],
    responses := [], optouts := [], nextCampaignId := 1, nextMessageId := 1 }

/-- State after the C7 witness fan-out. -/
def w7After : DB :=
  match create_campaign_and_queue w7Db demoReq 0 with
  | .ok (d, _) => d
  | .error _ => w7Db

/-- Witness for `opted_out_never_in_fanout`: in the two-member state the
opted-out member (id 2) gets no message in campaign 1. -/
theorem opted_out_never_in_fanout_witness :
    w7After.messages.all
      (fun msg => !(msg.campaign_id == 1) || !(msg.member_id == w7OptedOut.id))
      = true := by
  have h := opted_out_never_in_fanout w7Db demoReq 0 w7After 1 (by decide) (by decide)
    rfl w7OptedOut (by decide) rfl
  rw [List.all_eq_true]
  intro msg hmsg
  by_cases hc : msg.campaign_id = 1
  · simp [hc, h msg hmsg hc]
  · simp [hc]

/-- C6: an inbound event from a known recipient whose text trims and
lowercases into the stop vocabulary flips the member's opt-in flag to
false, appends exactly one OptOut record (even when the flag was already
false: nothing here depends on its prior value), creates no Response,
and leaves every other table unchanged. -/
theorem stop_command_applies_optout (db : DB) (now : Nat) (d : IncomingData)
    (p : String) (mem : Member)
    (hfrom : d.msg_from = some p) (hp : p ≠ "")
    (hvocab : stopCommands.contains (pyLower (pyStrip (d.text_body.getD ""))) = true)
    (hmem : findMember db.members p = some mem) :
    process_incoming_message db now d =
      { db with
        members := updMemberByPhone db.members p
          (fun m => { m with is_opted_in := false })
        optouts := db.optouts ++
          [{ member_id := mem.id, phone_number := p, reason := "stop" }] }
    ∧ (process_incoming_message db now d).responses = db.responses
    ∧ (process_incoming_message db now d).optouts.length = db.optouts.length + 1 := by
  have hstop : is_stop_command (d.text_body.getD "") = true := by
    unfold is_stop_command
    by_cases h : d.text_body.getD "" = ""
    · rw [h] at hvocab
      exact absurd hvocab (by decide)
    · rw [if_neg h]
      exact hvocab
  have hmain : process_incoming_message db now d =
      { db with
        members := updMemberByPhone db.members p
          (fun m => { m with is_opted_in := false })
        optouts := db.optouts ++
          [{ member_id := mem.id, phone_number := p, reason := "stop" }] } := by
    unfold process_incoming_message
    simp only [hfrom]
    rw [if_neg hp]
    simp only [hmem, hstop, if_true]
  exact ⟨hmain, by rw [hmain], by rw [hmain]; simp⟩

/-- Inbound event used by the C6 witness: the demo member texts " STOP ". -/
def w6Data : IncomingData :=
  { msg_from := some "+15550001111", text_body := some " STOP ",
    interactive := none, button := none }

/-- Witness for `stop_command_applies_optout` at the demo state: the
member's flag is cleared and one OptOut row is appended. -/
theorem stop_command_applies_optout_witness :
    process_incoming_message demoDb 5 w6Data =
      { demoDb with
        members := updMemberByPhone demoDb.members "+15550001111"
          (fun m => { m with is_opted_in := false })
        optouts := demoDb.optouts ++
          [{ member_id := demoMember.id, phone_number := "+15550001111",
             reason := "stop" }] }
    ∧ (process_incoming_message demoDb 5 w6Data).responses = demoDb.responses
    ∧ (process_incoming_message demoDb 5 w6Data).optouts.length
        = demoDb.optouts.length + 1 :=
  stop_command_applies_optout demoDb 5 w6Data "+15550001111" demoMember rfl
    (by decide) (by decide) rfl

/-- C9: malformed or uncorrelatable webhook events are silent no-ops: a
status event with a falsy `id` or `status` field, a status event whose
provider message id matches no message row, an inbound event with a
falsy sender, and an inbound event whose sender matches no member row,
each leave the whole state unchanged. -/
theorem unknown_or_malformed_events_discarded (now : Nat) :
    (∀ (db : DB) (sd : StatusData),
      pyTruthy sd.id = false ∨ pyTruthy sd.status = false →
      process_status_update db now sd = db)
    ∧ (∀ (db : DB) (sd : StatusData) (info : StatusInfo),
        extract_message_status sd = some info →
        findMessageByWa db.messages info.whatsapp_message_id = none →
        process_status_update db now sd = db)
    ∧ (∀ (db : DB) (d : IncomingData), pyTruthy d.msg_from = false →
        process_incoming_message db now d = db)
    ∧ (∀ (db : DB) (d : IncomingData) (s : String), d.msg_from = some s →
        findMember db.members s = none →
        process_incoming_message db now d = db) := by
  refine ⟨?_, ?_, ?_, ?_⟩
  · intro db sd h
    have : extract_message_status sd = none := by
      rcases h with h | h <;> simp [extract_message_status, h]
    simp [process_status_update, this]
  · intro db sd info hext hfind
    by_cases h : info.whatsapp_message_id = ""
    · simp [process_status_update, hext, h]
    · simp [process_status_update, hext, h, hfind]
  · intro db d h
    cases hf : d.msg_from with
    | none => simp [process_incoming_message, hf]
    | some s =>
      have hs : s = "" := by
        rw [hf] at h
        simpa [pyTruthy] using h
      subst hs
      simp [process_incoming_message, hf]
  · intro db d s hf hfind
    by_cases h : s = ""
    · simp [process_incoming_message, hf, h]
    · simp [process_incoming_message, hf, h, hfind]

/-- Status event with a missing id, used by the C9 witness. -/
def w9BadStatus : StatusData := { id := none, status := some "delivered", errors := [] }

/-- Status event with an unknown provider id, used by the C9 witness. -/
def w9UnknownStatus : StatusData :=
  { id := some "wamid.unknown", status := some "delivered", errors := [] }

/-- Inbound event from an unknown sender, used by the C9 witness. -/
def w9UnknownSender : IncomingData :=
  { msg_from := some "+19990000000", text_body := some "hello",
    interactive := none, button := none }

/-- Inbound event with no sender, used by the C9 witness. -/
def w9NoSender : IncomingData :=
  { msg_from := none, text_body := some "hello", interactive := none, button := none }

/-- Witness for `unknown_or_malformed_events_discarded` on the dispatched
demo state: all four discard rules fire and leave the state intact. -/
theorem unknown_or_malformed_events_discarded_witness :
    process_status_update demoDispatched 9 w9BadStatus = demoDispatched
    ∧ process_status_update demoDispatched 9 w9UnknownStatus = demoDispatched
    ∧ process_incoming_message demoDispatched 9 w9NoSender = demoDispatched
    ∧ process_incoming_message demoDispatched 9 w9UnknownSender = demoDispatched :=
  ⟨(unknown_or_malformed_events_discarded 9).1 demoDispatched w9BadStatus
      (Or.inl (by decide)),
   (unknown_or_malformed_events_discarded 9).2.1 demoDispatched w9UnknownStatus
      { whatsapp_message_id := "wamid.unknown", status := "delivered", error := none }
      (by decide) (by decide),
   (unknown_or_malformed_events_discarded 9).2.2.1 demoDispatched w9NoSender
      (by decide),
   (unknown_or_malformed_events_discarded 9).2.2.2 demoDispatched w9UnknownSender
      "+19990000000" rfl (by decide)⟩

/-- C10: dispatching a campaign id that matches no campaign row is a
silent no-op on the state, while the HTTP dispatch endpoint still
answers `dispatch_started` for that id. -/
theorem dispatch_unknown_campaign_noop (db : DB) (cid : Nat)
    (provider : Nat → SendResult) (now : Nat)
    (h : getCampaign db.campaigns cid = none) :
    send_campaign_messages db cid provider now = db
    ∧ (dispatch_campaign cid).status = "dispatch_started"
    ∧ (dispatch_campaign cid).campaign_id = cid := by
  refine ⟨?_, rfl, rfl⟩
  unfold send_campaign_messages
  rw [h]

/-- Witness for `dispatch_unknown_campaign_noop`: campaign 42 does not
exist in the demo state, so dispatching it changes nothing. -/
theorem dispatch_unknown_campaign_noop_witness :
    send_campaign_messages demoAfterCreate 42 demoProvider 3 = demoAfterCreate
    ∧ (dispatch_campaign 42).status = "dispatch_started"
    ∧ (dispatch_campaign 42).campaign_id = 42 :=
  dispatch_unknown_campaign_noop demoAfterCreate 42 demoProvider 3 (by decide)

/-- C8: an inbound event from a known recipient carrying a recognized
button/list reply payload (and not a stop command) is discarded when the
recipient has no prior message; otherwise it appends exactly one
Response attributed to the recipient's most recent message (maximal
`created_at`), denormalizing that message's campaign id, and changes
nothing else. -/
theorem button_reply_correlation (db : DB) (now : Nat) (d : IncomingData)
    (p : String) (mem : Member) (pl : ButtonPayload)
    (hfrom : d.msg_from = some p) (hp : p ≠ "")
    (hmem : findMember db.members p = some mem)
    (hstop : is_stop_command (d.text_body.getD "") = false)
    (hpl : extract_button_payload d = some pl) :
    ((∀ mm ∈ db.messages, mm.member_id ≠ mem.id) →
      process_incoming_message db now d = db)
    ∧ (∀ lm, latestMessageFor db.messages mem.id = some lm →
        process_incoming_message db now d =
          { db with responses := db.responses ++
              [{ message_id := lm.id
                 member_id := mem.id
                 campaign_id := lm.campaign_id
                 response_type := pl.response_type
                 button_title := pl.button_title
                 button_id := pl.button_id
                 received_at := now }] }
        ∧ lm ∈ db.messages ∧ lm.member_id = mem.id
        ∧ (∀ mm ∈ db.messages, mm.member_id = mem.id →
            mm.created_at ≤ lm.created_at)) := by
  constructor
  · intro hnone
    have hfil : db.messages.filter (fun m => m.member_id == mem.id) = [] := by
      rw [List.filter_eq_nil_iff]
      intro mm hmm
      simpa using hnone mm hmm
    have hlat : latestMessageFor db.messages mem.id = none := by
      unfold latestMessageFor
      rw [hfil]
      exact List.argmax_nil _
    unfold process_incoming_message
    simp only [hfrom]
    rw [if_neg hp]
    simp only [hmem, hstop, Bool.false_eq_true, if_false, hpl, hlat]
  · intro lm hlat
    have hlm' : lm ∈ (db.messages.filter (fun m => m.member_id == mem.id)).argmax
        (·.created_at) := by
      rw [Option.mem_def]
      simpa [latestMessageFor] using hlat
    have hmemfil := List.argmax_mem hlm'
    obtain ⟨hlmIn, hlmId⟩ := List.mem_filter.mp hmemfil
    refine ⟨?_, hlmIn, by simpa using hlmId, ?_⟩
    · unfold process_incoming_message
      simp only [hfrom]
      rw [if_neg hp]
      simp only [hmem, hstop, Bool.false_eq_true, if_false, hpl, hlat]
    · intro mm hmm hmmId
      exact List.le_of_mem_argmax
        (List.mem_filter.mpr ⟨hmm, by simpa using hmmId⟩) hlm'

/-- An already-dispatched message of the demo member, used by the C8
witness. -/
def w8Msg1 : Message :=
  { id := 1, campaign_id := 1, member_id := 1, status := .sent,
    template_name := some "hello_world", whatsapp_message_id := some "wamid.a",
    error_message := none, created_at := 0, sent_at := some 1,
    delivered_at := none, read_at := none }

/-- A later message of the demo member from another campaign, used by the
C8 witness. -/
def w8Msg2 : Message :=
  { id := 2, campaign_id := 2, member_id := 1, status := .sent,
    template_name := some "hello_world", whatsapp_message_id := some "wamid.b",
    error_message := none, created_at := 7, sent_at := some 8,
    delivered_at := none, read_at := none }

/-- State with the demo member and two of their messages. -/
def w8Db : DB :=
  { members := [demoMember], campaigns := [], messages := [w8Msg1, w8Msg2],
    responses := [], optouts := [], nextCampaignId := 3, nextMessageId := 3 }

/-- Button-reply inbound event from the demo member, used by the C8
witness. -/
def w8Data : IncomingData :=
  { msg_from := some "+15550001111", text_body := none,
    interactive := some
      { itype := some "button_reply"
        button_reply := some { rid := some "renew_yes", title := some "Renew" }
        list_reply := none }
    button := none }

/-- Witness for `button_reply_correlation`: with two prior messages the
reply is attributed to the later one (campaign 2), and with no prior
message (the fresh demo state) the same event is discarded. -/
theorem button_reply_correlation_witness :
    (process_incoming_message w8Db 9 w8Data =
      { w8Db with responses := w8Db.responses ++
          [{ message_id := w8Msg2.id
             member_id := demoMember.id
             campaign_id := w8Msg2.campaign_id
             response_type := "button_reply"
             button_title := "Renew"
             button_id := "renew_yes"
             received_at := 9 }] }
      ∧ w8Msg2 ∈ w8Db.messages ∧ w8Msg2.member_id = demoMember.id
      ∧ (∀ mm ∈ w8Db.messages, mm.member_id = demoMember.id →
          mm.created_at ≤ w8Msg2.created_at))
    ∧ process_incoming_message demoDb 9 w8Data = demoDb :=
  ⟨(button_reply_correlation w8Db 9 w8Data "+15550001111" demoMember
      ⟨"button_reply", "renew_yes", "Renew"⟩ rfl (by decide) rfl (by decide) rfl).2
      w8Msg2 (by decide),
   (button_reply_correlation demoDb 9 w8Data "+15550001111" demoMember
      ⟨"button_reply", "renew_yes", "Renew"⟩ rfl (by decide) rfl (by decide) rfl).1
      (by decide)⟩

/-! ## Lemmas about the dispatch loop -/

/-- Whether a provider outcome is a success. -/
def isOkResult : SendResult → Bool
  | .ok _ => true
  | .err _ => false
  | .exn _ => false

/-- Number of snapshot messages whose provider call succeeds. -/
def okCount (provider : Nat → SendResult) (S : List Message) : Nat :=
  (S.filter (fun m => isOkResult (provider m.id))).length

/-- Number of snapshot messages whose provider call fails or raises. -/
def failCount (provider : Nat → SendResult) (S : List Message) : Nat :=
  (S.filter (fun m => !isOkResult (provider m.id))).length

/-- The dispatch loop acts independently on the message table and the
campaign table and touches nothing else. -/
theorem dispatch_fold_components (provider : Nat → SendResult) (now cid : Nat) :
    ∀ (S : List Message) (acc : DB),
      S.foldl (dispatchStep provider now cid) acc =
        { acc with
          messages := S.foldl
            (fun ms m => updMessageById ms m.id (applySend provider now)) acc.messages
          campaigns := S.foldl
            (fun cs m => updCampaign cs cid (incCounters (provider m.id)))
            acc.campaigns } := by
  intro S
  induction S with
  | nil => intro acc; rfl
  | cons m S ih =>
    intro acc
    rw [List.foldl_cons, ih]
    rfl

/-- Folding message updates whose keys all differ from the head leaves the
head in place. -/
theorem foldUpd_not_mem (f : Message → Message) :
    ∀ (S : List Message) (x : Message) (T : List Message),
      (∀ s ∈ S, s.id ≠ x.id) →
      S.foldl (fun ms m => updMessageById ms m.id f) (x :: T) =
        x :: S.foldl (fun ms m => updMessageById ms m.id f) T := by
  intro S
  induction S with
  | nil => intro x T _; rfl
  | cons s S ih =>
    intro x T h
    rw [List.foldl_cons, List.foldl_cons]
    have hs : ¬x.id = s.id := fun he => h s (List.mem_cons_self ..) he.symm
    have hstep : updMessageById (x :: T) s.id f = x :: updMessageById T s.id f := by
      simp only [updMessageById, if_neg hs]
    rw [hstep]
    exact ih x _ (fun a ha => h a (List.mem_cons_of_mem _ ha))

/-- Folding one id-preserving update over each filtered element of a
list with distinct ids updates exactly the filtered elements in place. -/
theorem foldUpd_filter (f : Message → Message) (P : Message → Bool)
    (hid : ∀ m, (f m).id = m.id) :
    ∀ (M : List Message), (M.map (·.id)).Nodup →
      (M.filter P).foldl (fun ms m => updMessageById ms m.id f) M =
        M.map (fun m => if P m then f m else m) := by
  intro M
  induction M with
  | nil => intro _; rfl
  | cons x T ih =>
    intro hnd
    rw [List.map_cons, List.nodup_cons] at hnd
    have hxT : x.id ∉ T.map (·.id) := hnd.1
    have hndT : (T.map (·.id)).Nodup := hnd.2
    have hSne : ∀ s ∈ T.filter P, s.id ≠ x.id := by
      intro s hs he
      exact hxT (he ▸ List.mem_map_of_mem _ (List.mem_of_mem_filter hs))
    by_cases hP : P x
    · rw [List.filter_cons_of_pos hP, List.foldl_cons]
      have hstep : updMessageById (x :: T) x.id f = f x :: T := by
        simp [updMessageById]
      rw [hstep]
      have hSne' : ∀ s ∈ T.filter P, s.id ≠ (f x).id := by
        intro s hs
        rw [hid x]
        exact hSne s hs
      rw [foldUpd_not_mem f (T.filter P) (f x) T hSne', ih hndT]
      simp [hP]
    · rw [List.filter_cons_of_neg hP]
      rw [foldUpd_not_mem f (T.filter P) x T hSne, ih hndT]
      simp [hP]

/-- Updating the first campaign with a given id, by an id-preserving
function, maps the lookup result. -/
theorem getCampaign_updCampaign (cs : List Campaign) (cid : Nat)
    (h : Campaign → Campaign) (hid : ∀ c, (h c).id = c.id) :
    getCampaign (updCampaign cs cid h) cid = (getCampaign cs cid).map h := by
  induction cs with
  | nil => rfl
  | cons c cs ih =>
    by_cases hc : c.id = cid
    · simp only [updCampaign, if_pos hc, getCampaign]
      rw [List.find?_cons_of_pos cs (by simp [hid, hc]),
        List.find?_cons_of_pos cs (by simp [hc])]
      rfl
    · simp only [updCampaign, if_neg hc, getCampaign]
      rw [List.find?_cons_of_neg _ (by simp [hc]),
        List.find?_cons_of_neg cs (by simp [hc])]
      exact ih

/-- An id-preserving update of the campaign with one id does not change
the lookup of another id. -/
theorem getCampaign_updCampaign_ne (cs : List Campaign) (cid j : Nat)
    (hj : j ≠ cid) (h : Campaign → Campaign) (hid : ∀ c, (h c).id = c.id) :
    getCampaign (updCampaign cs cid h) j = getCampaign cs j := by
  induction cs with
  | nil => rfl
  | cons c cs ih =>
    by_cases hc : c.id = cid
    · have hcj : ¬c.id = j := fun he => hj (he ▸ hc)
      have hcj' : ¬(h c).id = j := by rw [hid]; exact hcj
      simp only [updCampaign, if_pos hc, getCampaign]
      rw [List.find?_cons_of_neg cs (by simp [hcj']),
        List.find?_cons_of_neg cs (by simp [hcj])]
    · simp only [updCampaign, if_neg hc, getCampaign]
      by_cases hcj : c.id = j
      · rw [List.find?_cons_of_pos _ (by simp [hcj]),
          List.find?_cons_of_pos cs (by simp [hcj])]
      · rw [List.find?_cons_of_neg _ (by simp [hcj]),
          List.find?_cons_of_neg cs (by simp [hcj])]
        exact ih

/-- Effect of the dispatch loop on the dispatched campaign's counters:
`sent_count` grows by the number of successful sends and `failed_count`
by the number of failed ones. -/
theorem getCampaign_foldCounters (provider : Nat → SendResult) (cid : Nat) :
    ∀ (S : List Message) (cs : List Campaign) (c : Campaign),
      getCampaign cs cid = some c →
      getCampaign
        (S.foldl (fun cs m => updCampaign cs cid (incCounters (provider m.id))) cs)
        cid
        = some { c with sent_count := c.sent_count + okCount provider S,
                        failed_count := c.failed_count + failCount provider S } := by
  intro S
  induction S with
  | nil =>
    intro cs c hc
    simpa [okCount, failCount] using hc
  | cons m S ih =>
    intro cs c hc
    rw [List.foldl_cons]
    have hup := getCampaign_updCampaign cs cid (incCounters (provider m.id))
      (by intro c'; cases provider m.id <;> rfl)
    rw [hc] at hup
    rw [ih _ _ hup]
    cases c
    cases hpm : provider m.id <;>
      simp [incCounters, okCount, failCount, isOkResult, hpm,
        List.filter_cons, Campaign.mk.injEq] <;>
      omega

/-- The dispatch loop's counter updates do not touch other campaigns. -/
theorem getCampaign_foldCounters_ne (provider : Nat → SendResult) (cid j : Nat)
    (hj : j ≠ cid) :
    ∀ (S : List Message) (cs : List Campaign),
      getCampaign
        (S.foldl (fun cs m => updCampaign cs cid (incCounters (provider m.id))) cs) j
        = getCampaign cs j := by
  intro S
  induction S with
  | nil => intro cs; rfl
  | cons m S ih =>
    intro cs
    rw [List.foldl_cons, ih]
    exact getCampaign_updCampaign_ne cs cid j hj _
      (by intro c'; cases provider m.id <;> rfl)

/-- C5: dispatching an existing campaign (in a state with distinct message
ids) rewrites exactly the messages of that campaign that were `queued` at
dispatch start — to `sent` with the provider id recorded on success, to
`failed` with the error recorded on failure or exception — leaves every
other message untouched, raises the campaign's `sent_count` by the number
of successes and `failed_count` by the number of failures, sets its
status to `sent` (after passing through `sending`, whose `sent_at`
timestamp survives), and changes no other campaign or table. -/
theorem dispatch_spec (db : DB) (cid : Nat) (provider : Nat → SendResult)
    (now : Nat) (c0 : Campaign)
    (hc : getCampaign db.campaigns cid = some c0)
    (hids : (db.messages.map (·.id)).Nodup) :
    (send_campaign_messages db cid provider now).messages =
      db.messages.map
        (fun m => if m.campaign_id == cid && m.status == MessageStatus.queued
          then applySend provider now m else m)
    ∧ getCampaign (send_campaign_messages db cid provider now).campaigns cid =
        some { c0 with
               status := "sent"
               sent_at := some now
               sent_count := c0.sent_count + okCount provider
                 (db.messages.filter
                   (fun m => m.campaign_id == cid && m.status == MessageStatus.queued))
               failed_count := c0.failed_count + failCount provider
                 (db.messages.filter
                   (fun m => m.campaign_id == cid && m.status == MessageStatus.queued)) }
    ∧ (∀ j, j ≠ cid →
        getCampaign (send_campaign_messages db cid provider now).campaigns j =
          getCampaign db.campaigns j)
    ∧ (send_campaign_messages db cid provider now).members = db.members
    ∧ (send_campaign_messages db cid provider now).responses = db.responses
    ∧ (send_campaign_messages db cid provider now).optouts = db.optouts := by
  have hidf : ∀ m, (applySend provider now m).id = m.id := by
    intro m
    unfold applySend
    cases provider m.id <;> rfl
  have hpre : ∀ c : Campaign,
      ((fun c : Campaign => { c with status := "sending", sent_at := some now }) c).id
        = c.id := fun _ => rfl
  have hpost : ∀ c : Campaign,
      ((fun c : Campaign => { c with status := "sent" }) c).id = c.id := fun _ => rfl
  have hstep : send_campaign_messages db cid provider now =
      { db with
        messages := (db.messages.filter
            (fun m => m.campaign_id == cid && m.status == MessageStatus.queued)).foldl
          (fun ms m => updMessageById ms m.id (applySend provider now)) db.messages
        campaigns := updCampaign
          ((db.messages.filter
              (fun m => m.campaign_id == cid && m.status == MessageStatus.queued)).foldl
            (fun cs m => updCampaign cs cid (incCounters (provider m.id)))
            (updCampaign db.campaigns cid
              (fun c : Campaign => { c with status := "sending", sent_at := some now })))
          cid (fun c : Campaign => { c with status := "sent" }) } := by
    simp only [send_campaign_messages, hc]
    rw [dispatch_fold_components]
  rw [hstep]
  refine ⟨?_, ?_, ?_, rfl, rfl, rfl⟩
  · exact foldUpd_filter _ _ hidf db.messages hids
  · have h1 := getCampaign_updCampaign db.campaigns cid
      (fun c : Campaign => { c with status := "sending", sent_at := some now }) hpre
    rw [hc] at h1
    have h2 := getCampaign_foldCounters provider cid
      (db.messages.filter
        (fun m => m.campaign_id == cid && m.status == MessageStatus.queued))
      _ _ h1
    have h3 := getCampaign_updCampaign
      ((db.messages.filter
          (fun m => m.campaign_id == cid && m.status == MessageStatus.queued)).foldl
        (fun cs m => updCampaign cs cid (incCounters (provider m.id)))
        (updCampaign db.campaigns cid
          (fun c : Campaign => { c with status := "sending", sent_at := some now })))
      cid (fun c : Campaign => { c with status := "sent" }) hpost
    rw [h2] at h3
    exact h3
  · intro j hj
    rw [getCampaign_updCampaign_ne _ cid j hj _ hpost,
      getCampaign_foldCounters_ne provider cid j hj,
      getCampaign_updCampaign_ne db.campaigns cid j hj _ hpre]

/-- Campaign used by the C5 witness. -/
def w5Camp : Campaign :=
  { id := 1, name := "notify", template_name := "hello_world", description := none,
    target_count := 2, sent_count := 0, delivered_count := 0, read_count := 0,
    failed_count := 0, status := "queued", created_at := 0, sent_at := none }

/-- Queued message whose send will succeed. -/
def w5Msg1 : Message :=
  { id := 1, campaign_id := 1, member_id := 1, status := .queued,
    template_name := some "hello_world", whatsapp_message_id := none,
    error_message := none, created_at := 0, sent_at := none,
    delivered_at := none, read_at := none }

/-- Queued message whose send will fail. -/
def w5Msg2 : Message :=
  { id := 2, campaign_id := 1, member_id := 2, status := .queued,
    template_name := some "hello_world", whatsapp_message_id := none,
    error_message := none, created_at := 0, sent_at := none,
    delivered_at := none, read_at := none }

/-- Message of the same campaign already `sent`, which dispatch must skip. -/
def w5Msg3 : Message :=
  { id := 3, campaign_id := 1, member_id := 3, status := .sent,
    template_name := some "hello_world", whatsapp_message_id := some "wamid.old",
    error_message := none, created_at := 0, sent_at := some 1,
    delivered_at := none, read_at := none }

/-- State used by the C5 witness. -/
def w5Db : DB :=
  { members := [demoMember], campaigns := [w5Camp],
    messages := [w5Msg1, w5Msg2, w5Msg3], responses := [], optouts := [],
    nextCampaignId := 2, nextMessageId := 4 }

/-- Scripted provider for the C5 witness: message 1 succeeds, message 2
gets a failure response, anything else raises. -/
def w5Provider : Nat → SendResult
  | 1 => .ok (some "w1")
  | 2 => .err (some "boom")
  | _ => .exn "x"

/-- Witness for `dispatch_spec` on the concrete three-message campaign:
the two queued messages become `sent` and `failed`, the already-sent one
is skipped, and the campaign ends `sent` with `sent_count = 1` and
`failed_count = 1`. -/
theorem dispatch_spec_witness :
    ((send_campaign_messages w5Db 1 w5Provider 4).messages =
      w5Db.messages.map
        (fun m => if m.campaign_id == 1 && m.status == MessageStatus.queued
          then applySend w5Provider 4 m else m)
    ∧ getCampaign (send_campaign_messages w5Db 1 w5Provider 4).campaigns 1 =
        some { w5Camp with
               status := "sent"
               sent_at := some 4
               sent_count := w5Camp.sent_count + okCount w5Provider
                 (w5Db.messages.filter
                   (fun m => m.campaign_id == 1 && m.status == MessageStatus.queued))
               failed_count := w5Camp.failed_count + failCount w5Provider
                 (w5Db.messages.filter
                   (fun m => m.campaign_id == 1 && m.status == MessageStatus.queued)) }
    ∧ (∀ j, j ≠ 1 →
        getCampaign (send_campaign_messages w5Db 1 w5Provider 4).campaigns j =
          getCampaign w5Db.campaigns j)
    ∧ (send_campaign_messages w5Db 1 w5Provider 4).members = w5Db.members
    ∧ (send_campaign_messages w5Db 1 w5Provider 4).responses = w5Db.responses
    ∧ (send_campaign_messages w5Db 1 w5Provider 4).optouts = w5Db.optouts)
    ∧ (getCampaign (send_campaign_messages w5Db 1 w5Provider 4).campaigns 1).map
        (fun c => (c.status, c.sent_count, c.failed_count, c.target_count))
        = some ("sent", 1, 1, 2)
    ∧ ((send_campaign_messages w5Db 1 w5Provider 4).messages.map
        (fun m => (m.status, m.whatsapp_message_id)))
        = [(MessageStatus.sent, some "w1"), (MessageStatus.failed, none),
           (MessageStatus.sent, some "wamid.old")] :=
  ⟨dispatch_spec w5Db 1 w5Provider 4 w5Camp rfl (by decide), by decide, by decide⟩

end WhatsAppBackend
